import Mathlib

/-!
Verification of the client-session core of `sharedb` (`lib/agent.js`).
The Agent sits between a duplex message stream to one client and the
Backend (storage, OT engine and query engine).  It validates and
dispatches wire requests, owns the per-connection subscription maps,
and translates Backend operation records into wire `op` push messages.

This file is a shallow embedding: JavaScript runtime values are
modelled by `JsVal`, and each definition below ports one function of
`lib/agent.js`.  Backend completions, which arrive through callbacks in
the source, are passed in as explicit outcome values, and the
externally visible actions of a handler (messages written, streams
destroyed, Backend calls made) are returned as an ordered event list.
-/

namespace ShareDB

/-- A JavaScript runtime value as it appears in wire messages and in
Backend op records: `undefined`, `null`, booleans, numbers (all numbers
in this protocol are integral: versions, sequence numbers, error
codes), strings, and structured objects given as association lists of
own fields. -/
inductive JsVal where
  | undefV
  | nullV
  | boolV (b : Bool)
  | numV (n : Int)
  | strV (s : String)
  | objV (fields : List (String × JsVal))

/-- Runtime type tag `typeof v`.  Note the JavaScript quirk that
`typeof null` is `"object"`. -/
def JsVal.typeof : JsVal → String
  | .undefV => "undefined"
  | .nullV => "object"
  | .boolV _ => "boolean"
  | .numV _ => "number"
  | .strV _ => "string"
  | .objV _ => "object"

/-- Loose equality with null (`v == null`): true exactly for `null` and
`undefined`. -/
def JsVal.isNullish : JsVal → Bool
  | .undefV => true
  | .nullV => true
  | _ => false

/-- JavaScript truthiness: `undefined`, `null`, `false`, `0` and the
empty string are falsy; every object is truthy. -/
def JsVal.truthy : JsVal → Bool
  | .undefV => false
  | .nullV => false
  | .boolV b => b
  | .numV n => n != 0
  | .strV s => s != ""
  | .objV _ => true

/-- Strict equality `===` on the values this code compares.  Primitives
compare by value.  Two structured objects compare by reference in
JavaScript; the operands of every `===` in the source have distinct
provenance (a request field against a Backend op field, or against a
literal), so object operands are modelled as unequal. -/
def jsStrictEq : JsVal → JsVal → Bool
  | .undefV, .undefV => true
  | .nullV, .nullV => true
  | .boolV a, .boolV b => a == b
  | .numV a, .numV b => a == b
  | .strV a, .strV b => a == b
  | _, _ => false

/-- Strict comparison of a value against a string literal, `v === "s"`. -/
def JsVal.eqStr (v : JsVal) (s : String) : Bool :=
  jsStrictEq v (.strV s)

/-- Short-circuit disjunction on values, `a || b`. -/
def jsOr (a b : JsVal) : JsVal :=
  if a.truthy then a else b

/-- Property read `v[k]`: an absent field, or any field of a
non-object, reads as `undefined`.  (A read on `null`/`undefined` would
throw, but every such read in the source is behind a truthiness
guard.) -/
def JsVal.prop (v : JsVal) (k : String) : JsVal :=
  match v with
  | .objV fields => (fields.lookup k).getD .undefV
  | _ => .undefV

/-- An operation record as the Backend delivers it — on a DocStream, in
a QueryEmitter op hook, or in a missed-ops list.  Records are dynamic;
absent fields are `undefined`.  `i` names the projected (source)
collection when the op came through a projection, `c` the collection,
`d` the document id, and `error` is set on in-stream error records. -/
structure OpRecord where
  v : JsVal := .undefV
  src : JsVal := .undefV
  seq : JsVal := .undefV
  op : JsVal := .undefV
  create : JsVal := .undefV
  del : JsVal := .undefV
  i : JsVal := .undefV
  c : JsVal := .undefV
  d : JsVal := .undefV
  error : JsVal := .undefV

/-- The wire form of an `op` push message as `Agent.prototype._sendOp`
assembles it: always `a:"op"`, `c`, `d`, `v`, `src`, `seq`; the fields
`op` and `create` are carried only when truthy on the Backend record,
and `del` is sent as the literal `true` exactly when the record's `del`
is truthy. -/
structure WireOpMsg where
  c : JsVal
  d : JsVal
  v : JsVal
  src : JsVal
  seq : JsVal
  op : Option JsVal
  create : Option JsVal
  del : Bool

/-- Port of `Agent.prototype._sendOp`: translate a Backend op record
for document `(collection, id)` into the wire message it writes. -/
def sendOpMsg (collection id : JsVal) (op : OpRecord) : WireOpMsg :=
  { c := collection
    d := id
    v := op.v
    src := op.src
    seq := op.seq
    op := if op.op.truthy then some op.op else none
    create := if op.create.truthy then some op.create else none
    del := op.del.truthy }

/-- Port of `Agent.prototype._isOwnOp`: an op is the client's own echo
when `clientId === op.src` and the agent's collection strictly equals
the op's source collection `op.i || op.c`. -/
def isOwnOp (clientId : String) (collection : JsVal) (op : OpRecord) : Bool :=
  jsStrictEq (.strV clientId) op.src && jsStrictEq collection (jsOr op.i op.c)

/-- Port of `Agent.prototype._send`: a write is quietly dropped once
the agent is closed.  Returns the messages actually written. -/
def sendGate (closed : Bool) (m : WireOpMsg) : List WireOpMsg :=
  if closed then [] else [m]

/-- The `data` listener `Agent.prototype._subscribeToStream` installs
on a DocStream: records carrying an `error` field are logged and
ignored; the client's own ops are dropped; every other record is
translated by `_sendOp` and written through the `_send` closed gate.
Returns the wire messages written for one delivered record. -/
def docStreamOnData (closed : Bool) (clientId : String) (collection id : JsVal)
    (data : OpRecord) : List WireOpMsg :=
  if data.error.truthy then []
  else if isOwnOp clientId collection data then []
  else sendGate closed (sendOpMsg collection id data)

/-- The `onOp` hook `Agent.prototype._subscribeToQuery` installs on a
QueryEmitter: the document id is taken from the op's `d` field, own ops
are dropped, the rest are translated and written through the `_send`
closed gate. -/
def emitterOnOp (closed : Bool) (clientId : String) (collection : JsVal)
    (op : OpRecord) : List WireOpMsg :=
  if isOwnOp clientId collection op then []
  else sendGate closed (sendOpMsg collection op.d op)

/-- C1: an op delivered on a subscribed DocStream or through a
QueryEmitter op hook whose `src` is this agent's clientId and whose
source collection `op.i || op.c` strictly equals the agent's collection
is never written as an `op` push message; and every other record that
does not carry an in-stream `error`, delivered while the agent is live,
is translated by `_sendOp` and written. -/
theorem own_ops_filtered_others_sent (closed : Bool) (clientId : String)
    (collection id : JsVal) (op : OpRecord) :
    (jsStrictEq (.strV clientId) op.src = true →
      jsStrictEq collection (jsOr op.i op.c) = true →
      docStreamOnData closed clientId collection id op = [] ∧
      emitterOnOp closed clientId collection op = []) ∧
    (op.error.truthy = false →
      isOwnOp clientId collection op = false →
      docStreamOnData false clientId collection id op = [sendOpMsg collection id op] ∧
      emitterOnOp false clientId collection op = [sendOpMsg collection op.d op]) := by
  constructor
  · intro hsrc hcoll
    have hown : isOwnOp clientId collection op = true := by
      simp [isOwnOp, hsrc, hcoll]
    constructor
    · simp [docStreamOnData, hown]
    · simp [emitterOnOp, hown]
  · intro herr hown
    constructor
    · simp [docStreamOnData, herr, hown, sendGate]
    · simp [emitterOnOp, hown, sendGate]

/-- Witness for C1 at concrete inputs: an echo of the client's own op
(`src = "me"`, source collection `users`) is dropped by both handlers,
and a foreign op (`src = "other"`) is sent by the doc-stream handler. -/
theorem own_ops_filtered_others_sent_witness :
    (docStreamOnData false "me" (.strV "users") (.strV "fred")
        { src := .strV "me", c := .strV "users", v := .numV 5 } = [] ∧
      emitterOnOp false "me" (.strV "users")
        { src := .strV "me", c := .strV "users", v := .numV 5 } = []) ∧
    docStreamOnData false "me" (.strV "users") (.strV "fred")
        { src := .strV "other", c := .strV "users", v := .numV 5 } =
      [sendOpMsg (.strV "users") (.strV "fred")
        { src := .strV "other", c := .strV "users", v := .numV 5 }] := by
  refine ⟨?_, ?_⟩
  · exact (own_ops_filtered_others_sent false "me" (.strV "users") (.strV "fred")
      { src := .strV "me", c := .strV "users", v := .numV 5 }).1 rfl rfl
  · exact ((own_ops_filtered_others_sent false "me" (.strV "users") (.strV "fred")
      { src := .strV "other", c := .strV "users", v := .numV 5 }).2 rfl rfl).1

/-- An error value as handlers pass it to the reply callback: in the
source these are plain objects carrying (usually) a `code` and a
`message` field; either may be absent. -/
structure ErrObj where
  code : JsVal := .undefV
  message : JsVal := .undefV

/-- One item of the translated query `data` array built by
`getResultsData` (see there for the field rules). -/
structure QItem where
  d : String
  v : Int
  type : Option (Option String)
  data : Option JsVal

/-- The distinct reply payload shapes the handlers build: the empty
acknowledgement, the submit ack `{src, seq, v}`, a snapshot reply, a
query-results reply, and the bulk-subscribe snapshot-map reply. -/
inductive ReplyBody where
  | empty
  | ack (src seq v : JsVal)
  | dataBody (data : JsVal)
  | queryRes (id : JsVal) (data : List QItem) (extra : JsVal)
  | bsRes (s : List (String × List (String × JsVal)))

/-- The normalized op `Agent.prototype._createOp` builds, one of the
three constructors `EditOp`, `CreateOp`, `DeleteOp` of the source (the
metadata slot `m`, always initialized to null, is omitted). -/
inductive COp where
  | EditOp (src seq v op : JsVal)
  | CreateOp (src seq v create : JsVal)
  | DeleteOp (src seq v del : JsVal)

/-- Source field `src` of a normalized op. -/
def COp.src : COp → JsVal
  | .EditOp s _ _ _ => s
  | .CreateOp s _ _ _ => s
  | .DeleteOp s _ _ _ => s

/-- Sequence field `seq` of a normalized op. -/
def COp.seq : COp → JsVal
  | .EditOp _ q _ _ => q
  | .CreateOp _ q _ _ => q
  | .DeleteOp _ q _ _ => q

/-- Version field `v` of a normalized op. -/
def COp.v : COp → JsVal
  | .EditOp _ _ w _ => w
  | .CreateOp _ _ w _ => w
  | .DeleteOp _ _ w _ => w

/-- The externally visible actions of a handler, in the order they are
performed: wire writes (op pushes and request replies), DocStream
lifecycle (destruction and registration, streams being named by opaque
numeric handles), Backend calls, and the uncaught exception a handler
would raise. -/
inductive Ev where
  | sendOp (m : WireOpMsg)
  | reply (err : Option ErrObj) (body : ReplyBody)
  | destroyStream (sid : Nat)
  | registerStream (collection id : String) (sid : Nat)
  | backendSubmit (c d : JsVal) (op : Option COp)
  | backendGetOpsBulk (c : JsVal) (req : List (String × JsVal))
  | backendQueryResubscribe (emitter : Nat)
  | crash

/-- Association-list write `m[k] = v`: replace the first binding of `k`
(JavaScript objects keep the original key position) or append a new
binding. -/
def assocSet {α : Type} (m : List (String × α)) (k : String) (v : α) :
    List (String × α) :=
  match m with
  | [] => [(k, v)]
  | (k', v') :: rest =>
    if k' == k then (k, v) :: rest else (k', v') :: assocSet rest k v

/-- Looking up the key just written finds the written value. -/
theorem lookup_assocSet_self {α : Type} (m : List (String × α)) (k : String) (v : α) :
    (assocSet m k v).lookup k = some v := by
  induction m with
  | nil => simp [assocSet, List.lookup]
  | cons p rest ih =>
    by_cases h : p.1 == k
    · simp [assocSet, h, List.lookup]
    · have h1 : (p.1 == k) = false := by simpa using h
      have h2 : (k == p.1) = false := by
        rw [beq_eq_false_iff_ne] at h1 ⊢
        exact fun hk => h1 (Eq.symm hk)
      simp [assocSet, h1, List.lookup, h2, ih]

/-- The per-connection Agent state the claims touch: the `closed` flag,
`subscribedDocs` (`collection → docId → DocStream` handle), and
`subscribedQueries` (numeric `queryId → QueryEmitter` handle). -/
structure AgentState where
  closed : Bool
  subscribedDocs : List (String × List (String × Nat))
  subscribedQueries : List (Int × Nat)

/-- The DocStream handle registered for `(c, d)`, if any:
`subscribedDocs[c]` falls back to an empty map as in the source's
get-or-create read. -/
def docsLookup (st : AgentState) (c d : String) : Option Nat :=
  ((st.subscribedDocs.lookup c).getD []).lookup d

/-- Port of `Agent.prototype._subscribeToStream`: on a closed agent the
incoming stream is destroyed and nothing is registered; otherwise any
previously registered stream for the same `(collection, id)` is
destroyed first and the new stream is then registered in its place.
Returns the new state and the lifecycle events in order. -/
def subscribeToStream (st : AgentState) (collection id : String) (sid : Nat) :
    AgentState × List Ev :=
  if st.closed then (st, [.destroyStream sid])
  else
    let streams := (st.subscribedDocs.lookup collection).getD []
    let evs :=
      match streams.lookup id with
      | some previous => [Ev.destroyStream previous, Ev.registerStream collection id sid]
      | none => [Ev.registerStream collection id sid]
    ({ st with
        subscribedDocs := assocSet st.subscribedDocs collection (assocSet streams id sid) },
      evs)

/-- C2: for every `(collection, docId)` at most one DocStream is
registered at a time — on a closed agent the incoming stream is
destroyed and the state is unchanged; on a live agent the pair maps to
exactly the new stream afterwards, a previously registered stream is
destroyed before the new one is registered, and with no prior stream
the only event is the registration. -/
theorem subscribeToStream_unique (st : AgentState) (c d : String) (sid : Nat) :
    (st.closed = true → subscribeToStream st c d sid = (st, [.destroyStream sid])) ∧
    (st.closed = false →
      docsLookup (subscribeToStream st c d sid).1 c d = some sid ∧
      (∀ previous, docsLookup st c d = some previous →
        (subscribeToStream st c d sid).2 =
          [.destroyStream previous, .registerStream c d sid]) ∧
      (docsLookup st c d = none →
        (subscribeToStream st c d sid).2 = [.registerStream c d sid])) := by
  constructor
  · intro h
    simp [subscribeToStream, h]
  · intro h
    refine ⟨?_, ?_, ?_⟩
    · simp only [subscribeToStream, h, Bool.false_eq_true, if_false, docsLookup,
        lookup_assocSet_self, Option.getD_some]
    · intro previous hp
      simp only [docsLookup] at hp
      simp [subscribeToStream, h, hp]
    · intro hp
      simp only [docsLookup] at hp
      simp [subscribeToStream, h, hp]

/-- Witness for C2 at a concrete state: re-subscribing `(users, fred)`
on a live agent that already holds stream 3 destroys stream 3 before
registering stream 9, and the pair then maps to 9. -/
theorem subscribeToStream_unique_witness :
    docsLookup (subscribeToStream
        { closed := false, subscribedDocs := [("users", [("fred", 3)])],
          subscribedQueries := [] } "users" "fred" 9).1 "users" "fred" = some 9 ∧
    (subscribeToStream
        { closed := false, subscribedDocs := [("users", [("fred", 3)])],
          subscribedQueries := [] } "users" "fred" 9).2 =
      [.destroyStream 3, .registerStream "users" "fred" 9] := by
  have h := (subscribeToStream_unique
    { closed := false, subscribedDocs := [("users", [("fred", 3)])],
      subscribedQueries := [] } "users" "fred" 9).2 rfl
  exact ⟨h.1, h.2.1 3 rfl⟩

/-- A client request record as dispatched by the Agent; fields the
client did not send are `undefined`. -/
structure Request where
  a : JsVal := .undefV
  c : JsVal := .undefV
  d : JsVal := .undefV
  id : JsVal := .undefV
  v : JsVal := .undefV
  s : JsVal := .undefV
  q : JsVal := .undefV
  op : JsVal := .undefV
  create : JsVal := .undefV
  del : JsVal := .undefV
  seq : JsVal := .undefV
  src : JsVal := .undefV

/-- Negativity test used in the version validation (`req.v < 0`,
reached only after `typeof req.v` was checked to be a number). -/
def vNeg : JsVal → Bool
  | .numV n => n < 0
  | _ => false

/-- Port of `Agent.prototype._checkRequest`: validation by action tag,
returning the error message on failure.  Query actions need a numeric
`id`; doc actions need `c` and `d`, when not nullish, to be strings,
and `op` additionally needs `v`, when not nullish, to be a non-negative
number; `bs` needs `typeof s` to be `"object"`; anything else is an
invalid action. -/
def checkRequest (req : Request) : Option String :=
  if req.a.eqStr "qsub" || req.a.eqStr "qfetch" || req.a.eqStr "qunsub"
      || req.a.eqStr "qresub" then
    if req.id.typeof != "number" then some "Missing query ID" else none
  else if req.a.eqStr "op" || req.a.eqStr "sub" || req.a.eqStr "unsub"
      || req.a.eqStr "fetch" then
    if !req.c.isNullish && req.c.typeof != "string" then some "Invalid collection"
    else if !req.d.isNullish && req.d.typeof != "string" then some "Invalid id"
    else if req.a.eqStr "op" && (!req.v.isNullish
        && (req.v.typeof != "number" || vNeg req.v)) then some "Invalid version"
    else none
  else if req.a.eqStr "bs" then
    if req.s.typeof != "object" then some "Invalid bulk subscribe data" else none
  else
    some "Invalid action"

/-- What `Agent.prototype._handleMessage` does with a request: either
reply immediately with an error (the validation failure, or the
unknown-action default of the dispatch switch) — in which case no
handler runs and no Backend call is made — or hand it to the handler
for its action tag. -/
inductive HandleAction where
  | replyError (code : Int) (message : String)
  | dispatch (action : String)

/-- Port of `Agent.prototype._handleMessage`: a validation failure is
replied with code 4000 and the validation message; otherwise the
request is dispatched on its action tag. -/
def handleMessage (req : Request) : HandleAction :=
  match checkRequest req with
  | some m => .replyError 4000 m
  | none =>
    if req.a.eqStr "qsub" then .dispatch "qsub"
    else if req.a.eqStr "qresub" then .dispatch "qresub"
    else if req.a.eqStr "qunsub" then .dispatch "qunsub"
    else if req.a.eqStr "qfetch" then .dispatch "qfetch"
    else if req.a.eqStr "bs" then .dispatch "bs"
    else if req.a.eqStr "sub" then .dispatch "sub"
    else if req.a.eqStr "unsub" then .dispatch "unsub"
    else if req.a.eqStr "fetch" then .dispatch "fetch"
    else if req.a.eqStr "op" then .dispatch "op"
    else .replyError 4000 "Invalid or unknown message"

/-- Port of `Agent.prototype._createOp`: normalize a submit request to
an `EditOp`, `CreateOp` or `DeleteOp` on the first truthy payload field
among `op`, `create`, `del`; `src` defaults to the agent's clientId;
a request with none of the three yields no op at all. -/
def createOp (clientId : String) (req : Request) : Option COp :=
  let src := jsOr req.src (.strV clientId)
  if req.op.truthy then some (.EditOp src req.seq req.v req.op)
  else if req.create.truthy then some (.CreateOp src req.seq req.v req.create)
  else if req.del.truthy then some (.DeleteOp src req.seq req.v req.del)
  else none

/-- The outcome `Backend.submit` delivers to its callback: an error
object, or the list of ops the client is missing. -/
inductive SubmitRes where
  | err (e : ErrObj)
  | ok (ops : List OpRecord)

/-- Port of `Agent.prototype._submit`: build the op with `_createOp`
and call `Backend.submit` with it; the callback then builds the ack
`{src, seq, v}` from the op's fields — which throws if no op was built
— and, on an error with code 4001, replies with the ack anyway; on any
other error replies with the error; on success forwards each missed op
through `_sendOp` and then replies with the ack. -/
def submit (clientId : String) (req : Request) (result : SubmitRes) : List Ev :=
  let op := createOp clientId req
  Ev.backendSubmit req.c req.d op ::
    match op with
    | none => [Ev.crash]
    | some o =>
      let ack := ReplyBody.ack o.src o.seq o.v
      match result with
      | .err e =>
        if jsStrictEq e.code (.numV 4001) then [.reply none ack]
        else [.reply (some e) .empty]
      | .ok ops =>
        (ops.map fun opr => Ev.sendOp (sendOpMsg req.c req.d opr)) ++ [.reply none ack]

/-- C4: when `Backend.submit` fails with code 4001 the client gets the
success ack `{src, seq, v}` taken from the constructed op and no ops
are forwarded; any other error is replied as-is with no ops forwarded;
on success every missed op is forwarded through the op-push translation
before the ack is replied. -/
theorem submit_ack_and_error_cases (clientId : String) (req : Request) (o : COp)
    (h : createOp clientId req = some o) :
    (∀ e : ErrObj, jsStrictEq e.code (.numV 4001) = true →
      submit clientId req (.err e) =
        [.backendSubmit req.c req.d (some o), .reply none (.ack o.src o.seq o.v)]) ∧
    (∀ e : ErrObj, jsStrictEq e.code (.numV 4001) = false →
      submit clientId req (.err e) =
        [.backendSubmit req.c req.d (some o), .reply (some e) .empty]) ∧
    (∀ ops : List OpRecord,
      submit clientId req (.ok ops) =
        .backendSubmit req.c req.d (some o) ::
          (ops.map fun opr => Ev.sendOp (sendOpMsg req.c req.d opr)) ++
            [.reply none (.ack o.src o.seq o.v)]) := by
  refine ⟨?_, ?_, ?_⟩
  · intro e he
    simp [submit, h, he]
  · intro e he
    simp [submit, h, he]
  · intro ops
    simp [submit, h]

/-- Witness for C4 at a concrete edit-op request: a 4001 error is acked
as success, a 5000 error is replied as an error, and on success the
single missed op is pushed before the ack. -/
theorem submit_ack_and_error_cases_witness :
    (submit "me"
        { a := .strV "op", c := .strV "users", d := .strV "fred",
          v := .numV 5, seq := .numV 1, op := .objV [] }
        (.err { code := .numV 4001, message := .strV "Op already submitted" }) =
      [.backendSubmit (.strV "users") (.strV "fred")
          (some (.EditOp (.strV "me") (.numV 1) (.numV 5) (.objV []))),
        .reply none (.ack (.strV "me") (.numV 1) (.numV 5))]) ∧
    (submit "me"
        { a := .strV "op", c := .strV "users", d := .strV "fred",
          v := .numV 5, seq := .numV 1, op := .objV [] }
        (.err { code := .numV 5000, message := .strV "boom" }) =
      [.backendSubmit (.strV "users") (.strV "fred")
          (some (.EditOp (.strV "me") (.numV 1) (.numV 5) (.objV []))),
        .reply (some { code := .numV 5000, message := .strV "boom" }) .empty]) ∧
    (submit "me"
        { a := .strV "op", c := .strV "users", d := .strV "fred",
          v := .numV 5, seq := .numV 1, op := .objV [] }
        (.ok [{ v := .numV 4, src := .strV "other" }]) =
      [.backendSubmit (.strV "users") (.strV "fred")
          (some (.EditOp (.strV "me") (.numV 1) (.numV 5) (.objV []))),
        .sendOp (sendOpMsg (.strV "users") (.strV "fred")
          { v := .numV 4, src := .strV "other" }),
        .reply none (.ack (.strV "me") (.numV 1) (.numV 5))]) := by
  have h := submit_ack_and_error_cases "me"
    { a := .strV "op", c := .strV "users", d := .strV "fred",
      v := .numV 5, seq := .numV 1, op := .objV [] }
    (.EditOp (.strV "me") (.numV 1) (.numV 5) (.objV [])) rfl
  exact ⟨h.1 { code := .numV 4001, message := .strV "Op already submitted" } rfl,
    h.2.1 { code := .numV 5000, message := .strV "boom" } rfl,
    h.2.2 [{ v := .numV 4, src := .strV "other" }]⟩

/-- C10: an `op` request carrying none of `op`, `create`, `del` (with
otherwise well-typed `c`, `d`, `v`) passes validation, `_createOp`
builds no op, and `Backend.submit` is still invoked with that absent op
— the subsequent callback then crashes reading `op.src`. -/
theorem submit_without_payload_reaches_backend (clientId : String) (req : Request)
    (result : SubmitRes) (ha : req.a = .strV "op")
    (hop : req.op = .undefV) (hcr : req.create = .undefV) (hdel : req.del = .undefV)
    (hc : (!req.c.isNullish && req.c.typeof != "string") = false)
    (hd : (!req.d.isNullish && req.d.typeof != "string") = false)
    (hv : (!req.v.isNullish && (req.v.typeof != "number" || vNeg req.v)) = false) :
    checkRequest req = none ∧
    createOp clientId req = none ∧
    submit clientId req result = [.backendSubmit req.c req.d none, .crash] := by
  refine ⟨?_, ?_, ?_⟩
  · simp [checkRequest, ha, JsVal.eqStr, jsStrictEq, hc, hd, hv]
  · simp [createOp, hop, hcr, hdel, JsVal.truthy]
  · simp [submit, createOp, hop, hcr, hdel, JsVal.truthy]

/-- Witness for C10: the concrete payload-free submit
`{a:"op", c:"users", d:"fred", v:3, seq:1}` passes validation and is
handed to the Backend with no op. -/
theorem submit_without_payload_reaches_backend_witness :
    checkRequest
        { a := .strV "op", c := .strV "users", d := .strV "fred",
          v := .numV 3, seq := .numV 1 } = none ∧
    createOp "me"
        { a := .strV "op", c := .strV "users", d := .strV "fred",
          v := .numV 3, seq := .numV 1 } = none ∧
    submit "me"
        { a := .strV "op", c := .strV "users", d := .strV "fred",
          v := .numV 3, seq := .numV 1 } (.ok []) =
      [.backendSubmit (.strV "users") (.strV "fred") none, .crash] :=
  submit_without_payload_reaches_backend "me"
    { a := .strV "op", c := .strV "users", d := .strV "fred",
      v := .numV 3, seq := .numV 1 }
    (.ok []) rfl rfl rfl rfl rfl rfl rfl

/-- A message as read from the MessageStream: either text still to be
JSON-parsed, or an already structured record. -/
inductive RawMsg where
  | text (s : String)
  | record (r : Request)

/-- The actions one pump iteration performs on a message that was read:
closing the agent with the parse error, handing a structured record to
`_handleMessage`, or handing the still-unparsed text string to
`_handleMessage`. -/
inductive PumpEv where
  | closeErr
  | handleRecord (r : Request)
  | handleText (s : String)

/-- Port of the message-handling part of `Agent.prototype.pump`, for
one message read from the stream.  `parse` stands for `JSON.parse` on
wire requests (`none` = the parse threw).  A text message is parsed;
on failure the agent is closed with the parse error — and, the catch
branch not returning, control falls through and the unparsed string is
still passed to `_handleMessage`. -/
def pumpStep (parse : String → Option Request) : RawMsg → List PumpEv
  | .record r => [.handleRecord r]
  | .text s =>
    match parse s with
    | some r => [.handleRecord r]
    | none => [.closeErr, .handleText s]

/-- C5 (code bug): on a text message that fails to JSON-parse, the
agent is closed with the parse error but the unparsed string is then
still handed to `_handleMessage` — the parse-failure branch of `pump`
does not return — so dispatch is reached, where the string (having no
action tag) draws an "Invalid action" 4000 error reply.  The spec says
a parse failure only closes the agent. -/
theorem pump_parse_failure_still_dispatches :
    pumpStep (fun _ => none) (.text "not json") =
      [.closeErr, .handleText "not json"] ∧
    checkRequest { a := .undefV } = some "Invalid action" :=
  ⟨rfl, rfl⟩

/-- C8 (counterexample): the request `{a:"bs", s:null}` has an `s` that
is not a structured object, yet validation passes — `typeof null` is
`"object"` — and the request is dispatched to the bulk-subscribe
handler instead of drawing a 4000 error reply. -/
theorem bs_null_passes_validation :
    handleMessage { a := .strV "bs", s := .nullV } = .dispatch "bs" ∧
    JsVal.nullV.typeof = "object" :=
  ⟨rfl, rfl⟩

/-- C8 (amended): a `bs` request whose `s` has runtime type other than
`"object"` — `undefined`, boolean, number or string, though not `null`,
whose typeof is `"object"` — is replied with code 4000 and the message
"Invalid bulk subscribe data", and reaches no handler (hence no Backend
call). -/
theorem bs_nonobject_rejected (req : Request) (ha : req.a = .strV "bs")
    (hs : req.s.typeof ≠ "object") :
    handleMessage req = .replyError 4000 "Invalid bulk subscribe data" := by
  have hs' : (req.s.typeof != "object") = true := by
    simpa using hs
  simp [handleMessage, checkRequest, ha, JsVal.eqStr, jsStrictEq, hs']

/-- Witness for the amended C8: `{a:"bs", s:17}` is rejected with code
4000. -/
theorem bs_nonobject_rejected_witness :
    handleMessage { a := .strV "bs", s := .numV 17 } =
      .replyError 4000 "Invalid bulk subscribe data" :=
  bs_nonobject_rejected { a := .strV "bs", s := .numV 17 } rfl (by decide)

/-- The emitter registered under a request's query id, if any: query
ids are numeric (enforced by validation); a non-numeric id reads no
entry. -/
def lookupQueryEmitter (st : AgentState) (idv : JsVal) : Option Nat :=
  match idv with
  | .numV n => st.subscribedQueries.lookup n
  | _ => none

/-- The outcome `Backend.queryResubscribe` delivers to its callback. -/
inductive ResubRes where
  | err (e : ErrObj)
  | ok

/-- Port of `Agent.prototype._queryResubscribe`: look up the emitter
registered under the request's id; when absent, reply with the error
object `{message: "Can not find query to resubscribe"}` — which
carries no `code` field — otherwise call `Backend.queryResubscribe`
and reply per its outcome. -/
def queryResubscribe (st : AgentState) (req : Request) (result : ResubRes) :
    List Ev :=
  match lookupQueryEmitter st req.id with
  | none =>
    [.reply (some { message := .strV "Can not find query to resubscribe" }) .empty]
  | some em =>
    .backendQueryResubscribe em ::
      match result with
      | .err e => [.reply (some e) .empty]
      | .ok => [.reply none .empty]

/-- C9 (counterexample): the error replied to a `qresub` whose query id
has no registered emitter is `{message: "Can not find query to
resubscribe"}` with no `code` field at all — its `code` reads as
`undefined`, whose runtime type is not `"number"`. -/
theorem qresub_missing_error_has_no_code :
    queryResubscribe { closed := false, subscribedDocs := [], subscribedQueries := [] }
        { a := .strV "qresub", id := .numV 7 } .ok =
      [.reply (some { message := .strV "Can not find query to resubscribe" }) .empty] ∧
    JsVal.undefV.typeof ≠ "number" :=
  ⟨rfl, by decide⟩

/-- C9 (amended): the `qresub` not-found error carries only its message
— its `code` is absent — while the errors the core builds in
`_handleMessage` (validation failures and the unknown-action default)
do carry the numeric code 4000 alongside their message. -/
theorem core_error_shapes (st : AgentState) (req : Request) (result : ResubRes)
    (h : lookupQueryEmitter st req.id = none) :
    queryResubscribe st req result =
      [.reply
          (some { code := .undefV,
                  message := .strV "Can not find query to resubscribe" }) .empty] ∧
    (∀ (req2 : Request) (m : String), checkRequest req2 = some m →
      handleMessage req2 = .replyError 4000 m) := by
  constructor
  · simp [queryResubscribe, h]
  · intro req2 m hm
    simp [handleMessage, hm]

/-- Witness for the amended C9: on an agent with no subscribed queries,
`qresub` with id 7 draws the code-less error, and the unknown action
`"nope"` draws a 4000 validation error. -/
theorem core_error_shapes_witness :
    queryResubscribe { closed := false, subscribedDocs := [], subscribedQueries := [] }
        { a := .strV "qresub", id := .numV 7 } .ok =
      [.reply
          (some { code := .undefV,
                  message := .strV "Can not find query to resubscribe" }) .empty] ∧
    handleMessage { a := .strV "nope" } = .replyError 4000 "Invalid action" := by
  have h := core_error_shapes
    { closed := false, subscribedDocs := [], subscribedQueries := [] }
    { a := .strV "qresub", id := .numV 7 } .ok rfl
  exact ⟨h.1, h.2 { a := .strV "nope" } "Invalid action" rfl⟩

/-- One query result as the Backend returns it: a snapshot record with
its document id, version, OT type (null for a nonexistent document) and
snapshot data. -/
structure QueryResult where
  id : String
  v : Int
  type : Option String
  data : JsVal

/-- The loop of `getResultsData`, with the running `lastType` made
explicit (it starts as null and, after each result, holds that result's
type): each result yields `{d, v}`, carries `type` only when it differs
from the running last type, and carries `data` only when the caller
supplied no versions map or no version for this id. -/
def getResultsDataGo (versions : JsVal) : Option String → List QueryResult → List QItem
  | _, [] => []
  | lastType, r :: rest =>
    { d := r.id
      v := r.v
      type := if lastType = r.type then none else some r.type
      data :=
        if !versions.truthy || (versions.prop r.id).isNullish then some r.data
        else none } ::
      getResultsDataGo versions r.type rest

/-- Port of `getResultsData`: translate Backend query results to the
wire `data` array, `lastType` starting as null. -/
def getResultsData (results : List QueryResult) (versions : JsVal) : List QItem :=
  getResultsDataGo versions none results

/-- The type of the result before position `i` — the value the running
`lastType` holds when the item at `i` is built (null before the first
result). -/
def prevResultType (results : List QueryResult) : Nat → Option String
  | 0 => none
  | j + 1 =>
    match results[j]? with
    | some p => p.type
    | none => none

/-- The translated array has one item per result. -/
theorem getResultsDataGo_length (versions : JsVal) (lt : Option String)
    (results : List QueryResult) :
    (getResultsDataGo versions lt results).length = results.length := by
  induction results generalizing lt with
  | nil => rfl
  | cons r rest ih => simp [getResultsDataGo, ih]

/-- Item `i` of the loop's output, as a function of result `i` and the
type of result `i - 1` (the running last type equals the previous
result's type from the second result on). -/
theorem getResultsDataGo_getElem (versions : JsVal) (lt : Option String)
    (results : List QueryResult) (i : Nat) :
    (getResultsDataGo versions lt results)[i]? =
      (results[i]?).map fun r =>
        { d := r.id
          v := r.v
          type :=
            if (match i with
                | 0 => lt
                | j + 1 =>
                  match results[j]? with
                  | some p => p.type
                  | none => none) = r.type then none
            else some r.type
          data :=
            if !versions.truthy || (versions.prop r.id).isNullish then some r.data
            else none } := by
  induction results generalizing lt i with
  | nil => simp [getResultsDataGo]
  | cons r rest ih =>
    cases i with
    | zero => simp [getResultsDataGo]
    | succ j =>
      have h := ih r.type j
      simp only [getResultsDataGo, List.getElem?_cons_succ]
      rw [h]
      cases j with
      | zero => simp
      | succ k => simp

/-- Item `i` of the translated array, as a function of result `i` and
the previous result's type. -/
theorem getResultsData_getElem (results : List QueryResult) (versions : JsVal)
    (i : Nat) :
    (getResultsData results versions)[i]? =
      (results[i]?).map fun r =>
        { d := r.id
          v := r.v
          type := if prevResultType results i = r.type then none else some r.type
          data :=
            if !versions.truthy || (versions.prop r.id).isNullish then some r.data
            else none } := by
  cases i with
  | zero => exact getResultsDataGo_getElem versions none results 0
  | succ j => exact getResultsDataGo_getElem versions none results (j + 1)

/-- C6: the translated `data` array has one item per result in result
order; item `i` carries `d` and `v` of result `i`; its `data` equals
the result's data exactly when the caller supplied no versions map or
its entry for the id is null/undefined (and is absent otherwise); its
`type` equals the result's type exactly when that differs from the
previous result's type in iteration order — on the first item, exactly
when the type is non-null — and is absent otherwise. -/
theorem query_results_translation (results : List QueryResult) (versions : JsVal)
    (i : Nat) (r : QueryResult) (hr : results[i]? = some r) :
    (getResultsData results versions).length = results.length ∧
    ∃ item, (getResultsData results versions)[i]? = some item ∧
      item.d = r.id ∧ item.v = r.v ∧
      (item.data = some r.data ↔
        (versions.truthy = false ∨ (versions.prop r.id).isNullish = true)) ∧
      (item.data = none ∨ item.data = some r.data) ∧
      (item.type = some r.type ↔ prevResultType results i ≠ r.type) ∧
      (item.type = none ∨ item.type = some r.type) := by
  refine ⟨getResultsDataGo_length versions none results, ?_⟩
  have h := getResultsData_getElem results versions i
  rw [hr, Option.map_some'] at h
  refine ⟨_, h, rfl, rfl, ?_, ?_, ?_, ?_⟩
  · by_cases hc : (!versions.truthy || (versions.prop r.id).isNullish) = true
    · have hrhs : versions.truthy = false ∨ (versions.prop r.id).isNullish = true := by
        simpa [Bool.not_eq_true'] using hc
      simp [hc, hrhs]
    · have hc' : (!versions.truthy || (versions.prop r.id).isNullish) = false := by
        simpa using hc
      have hrhs : ¬(versions.truthy = false ∨ (versions.prop r.id).isNullish = true) := by
        intro hor
        rcases hor with h1 | h1 <;> simp [h1] at hc'
      simp [hc', hrhs]
  · by_cases hc : (!versions.truthy || (versions.prop r.id).isNullish) = true
    · simp [hc]
    · have hc' : (!versions.truthy || (versions.prop r.id).isNullish) = false := by
        simpa using hc
      simp [hc']
  · by_cases hp : prevResultType results i = r.type
    · simp [hp]
    · simp [hp]
  · by_cases hp : prevResultType results i = r.type
    · simp [hp]
    · simp [hp]

/-- Witness for C6, the spec's own catch-up scenario: results
`[{id:"a", v:3, type:T, data:D1}, {id:"b", v:2, type:T, data:D2}]` with
versions `{a:1, b:2}` — the second item carries no `data` (a version
was supplied for `b`) and no `type` (it matches the previous item's). -/
theorem query_results_translation_witness :
    (getResultsData
        [{ id := "a", v := 3, type := some "T", data := .strV "D1" },
          { id := "b", v := 2, type := some "T", data := .strV "D2" }]
        (.objV [("a", .numV 1), ("b", .numV 2)])).length = 2 ∧
    ∃ item, (getResultsData
        [{ id := "a", v := 3, type := some "T", data := .strV "D1" },
          { id := "b", v := 2, type := some "T", data := .strV "D2" }]
        (.objV [("a", .numV 1), ("b", .numV 2)]))[1]? = some item ∧
      item.d = "b" ∧ item.v = 2 ∧
      (item.data = some (.strV "D2") ↔
        ((JsVal.objV [("a", .numV 1), ("b", .numV 2)]).truthy = false ∨
          ((JsVal.objV [("a", .numV 1), ("b", .numV 2)]).prop "b").isNullish = true)) ∧
      (item.data = none ∨ item.data = some (.strV "D2")) ∧
      (item.type = some (some "T") ↔
        prevResultType
          [{ id := "a", v := 3, type := some "T", data := .strV "D1" },
            { id := "b", v := 2, type := some "T", data := .strV "D2" }] 1 ≠ some "T") ∧
      (item.type = none ∨ item.type = some (some "T")) :=
  query_results_translation
    [{ id := "a", v := 3, type := some "T", data := .strV "D1" },
      { id := "b", v := 2, type := some "T", data := .strV "D2" }]
    (.objV [("a", .numV 1), ("b", .numV 2)]) 1
    { id := "b", v := 2, type := some "T", data := .strV "D2" } rfl

/-- The comparison `result.v > from` on a supplied version entry.
Entries are numbers (null having already been excluded by the guard) in
this protocol; JavaScript numeric coercion of other value kinds is not
modelled. -/
def jsGtV (a : Int) : JsVal → Bool
  | .numV n => a > n
  | _ => false

/-- The entries of the ops-catch-up request, in result order: one entry
`(id, versions[id])` per result whose supplied version is non-null and
smaller than the result's version.  (The source builds them in a loop,
allocating the request object on the first qualifying result.) -/
def opsCatchupEntries (results : List QueryResult) (versions : JsVal) :
    List (String × JsVal) :=
  results.filterMap fun r =>
    let fromV := versions.prop r.id
    if !fromV.isNullish && jsGtV r.v fromV then some (r.id, fromV) else none

/-- Port of `getResultsOpsRequest`: nothing when no versions map was
supplied, nothing when no result qualifies, else the qualifying
entries. -/
def getResultsOpsRequest (results : List QueryResult) (versions : JsVal) :
    Option (List (String × JsVal)) :=
  if !versions.truthy then none
  else if (opsCatchupEntries results versions).isEmpty then none
  else some (opsCatchupEntries results versions)

/-- The outcome `Backend.getOpsBulk` delivers to its callback: an
error, or a map from doc id to the ops since the requested version. -/
inductive OpsBulkRes where
  | err (e : ErrObj)
  | ok (opsMap : List (String × List OpRecord))

/-- Port of `Agent.prototype._sendQueryResults`: translate the results;
when the ops-catch-up request is empty reply immediately, otherwise
call `Backend.getOpsBulk` and — on success — forward every returned op
through `_sendOp` before replying with the translated results (a
Backend error becomes the reply instead). -/
def sendQueryResults (queryId collection versions : JsVal)
    (results : List QueryResult) (extra : JsVal) (bulk : OpsBulkRes) : List Ev :=
  let res := ReplyBody.queryRes queryId (getResultsData results versions) extra
  match getResultsOpsRequest results versions with
  | none => [.reply none res]
  | some opsRequest =>
    .backendGetOpsBulk collection opsRequest ::
      match bulk with
      | .err e => [.reply (some e) .empty]
      | .ok opsMap =>
        (opsMap.map fun p =>
            p.2.map fun op => Ev.sendOp (sendOpMsg collection (.strV p.1) op)).flatten ++
          [.reply none res]

/-- C7: the ops-catch-up request contains exactly the entries
`(id, versions[id])` for the results whose supplied version is non-null
and smaller than the result's version; when it is empty the query reply
is sent immediately with no `getOpsBulk` call, and when it is non-empty
`Backend.getOpsBulk` is called with it and every returned op is sent as
an `op` push message before the query reply. -/
theorem query_catchup_ops (queryId collection versions extra : JsVal)
    (results : List QueryResult) (es : List (String × JsVal))
    (h : getResultsOpsRequest results versions = some es) :
    (∀ id fromV, (id, fromV) ∈ es ↔
      ∃ r ∈ results, r.id = id ∧ versions.prop r.id = fromV ∧
        fromV.isNullish = false ∧ jsGtV r.v fromV = true) ∧
    (∀ results2 : List QueryResult,
      getResultsOpsRequest results2 versions = none →
      ∀ bulk, sendQueryResults queryId collection versions results2 extra bulk =
        [.reply none (.queryRes queryId (getResultsData results2 versions) extra)]) ∧
    (∀ opsMap, sendQueryResults queryId collection versions results extra (.ok opsMap) =
      .backendGetOpsBulk collection es ::
        (opsMap.map fun p =>
            p.2.map fun op => Ev.sendOp (sendOpMsg collection (.strV p.1) op)).flatten ++
          [.reply none (.queryRes queryId (getResultsData results versions) extra)]) := by
  have hes : es = opsCatchupEntries results versions := by
    by_cases hv : (!versions.truthy) = true
    · simp [getResultsOpsRequest, hv] at h
    · by_cases he : (opsCatchupEntries results versions).isEmpty = true
      · simp [getResultsOpsRequest, hv, he] at h
      · simp [getResultsOpsRequest, hv, he] at h
        exact h.symm
  refine ⟨?_, ?_, ?_⟩
  · intro id fromV
    rw [hes]
    constructor
    · intro hmem
      rw [opsCatchupEntries, List.mem_filterMap] at hmem
      obtain ⟨r, hr, hg⟩ := hmem
      by_cases hc : (!(versions.prop r.id).isNullish && jsGtV r.v (versions.prop r.id)) = true
      · rw [if_pos hc] at hg
        obtain ⟨hid, hfrom⟩ := Prod.mk.injEq .. ▸ Option.some.injEq .. ▸ hg
        refine ⟨r, hr, hid, hfrom, ?_, ?_⟩
        · have h1 : (!(versions.prop r.id).isNullish) = true :=
            (Bool.and_eq_true _ _ ▸ hc).1
          rw [← hfrom]
          simpa using h1
        · rw [← hfrom]
          exact (Bool.and_eq_true _ _ ▸ hc).2
      · rw [if_neg hc] at hg
        exact absurd hg (by simp)
    · rintro ⟨r, hr, hid, hfrom, hnull, hgt⟩
      rw [opsCatchupEntries, List.mem_filterMap]
      refine ⟨r, hr, ?_⟩
      show (if (!(versions.prop r.id).isNullish && jsGtV r.v (versions.prop r.id)) = true
        then some (r.id, versions.prop r.id) else none) = some (id, fromV)
      rw [hfrom, hid]
      simp [hnull, hgt]
  · intro results2 h2 bulk
    simp [sendQueryResults, h2]
  · intro opsMap
    simp [sendQueryResults, h]

/-- Witness for C7, the spec's catch-up scenario: results
`[{id:"a", v:3}, {id:"b", v:2}]` with versions `{a:1, b:2}` — the
request is exactly `{a:1}` (`b` has no newer ops), and with one
returned op for `a` the op push precedes the query reply. -/
theorem query_catchup_ops_witness :
    ((("a" : String), JsVal.numV 1) ∈ [(("a" : String), JsVal.numV 1)] ↔
      ∃ r ∈ [{ id := "a", v := 3, type := some "T", data := .strV "D1" },
          { id := "b", v := 2, type := some "T", data := .strV "D2" }],
        QueryResult.id r = "a" ∧
          (JsVal.objV [("a", .numV 1), ("b", .numV 2)]).prop r.id = .numV 1 ∧
          (JsVal.numV 1).isNullish = false ∧ jsGtV r.v (.numV 1) = true) ∧
    sendQueryResults (.numV 7) (.strV "c") (.objV [("a", .numV 1), ("b", .numV 2)])
        [{ id := "a", v := 3, type := some "T", data := .strV "D1" },
          { id := "b", v := 2, type := some "T", data := .strV "D2" }]
        .undefV (.ok [("a", [{ v := .numV 2, src := .strV "other" }])]) =
      .backendGetOpsBulk (.strV "c") [("a", .numV 1)] ::
        ([[Ev.sendOp (sendOpMsg (.strV "c") (.strV "a")
            { v := .numV 2, src := .strV "other" })]].flatten ++
          [.reply none (.queryRes (.numV 7)
            (getResultsData
              [{ id := "a", v := 3, type := some "T", data := .strV "D1" },
                { id := "b", v := 2, type := some "T", data := .strV "D2" }]
              (.objV [("a", .numV 1), ("b", .numV 2)])) .undefV)]) := by
  have h := query_catchup_ops (.numV 7) (.strV "c")
    (.objV [("a", .numV 1), ("b", .numV 2)]) .undefV
    [{ id := "a", v := 3, type := some "T", data := .strV "D1" },
      { id := "b", v := 2, type := some "T", data := .strV "D2" }]
    [("a", .numV 1)] rfl
  exact ⟨h.1 "a" (.numV 1),
    h.2.2 [("a", [{ v := .numV 2, src := .strV "other" }])]⟩

/-- The key/value pairs `async.forEachOf` iterates and `for..in` walks
over the bulk-subscribe request: the own fields of a structured object.
Validation has already ensured `typeof` of the request is `"object"`,
so it is an object or `null`; `async.forEachOf` treats null as empty
(it guards with `object || []`). -/
def jsForInEntries : JsVal → List (String × JsVal)
  | .objV fields => fields
  | _ => []

/-- The keys `for (var id in versions)` walks for one collection entry
of the request: the own fields of an object (a string would enumerate
its index keys; other primitives enumerate nothing). -/
def jsForInKeys : JsVal → List String
  | .objV fields => fields.map Prod.fst
  | .strV s => (List.range s.length).map toString
  | _ => []

/-- The outcome `Backend.subscribeBulk` delivers for one collection: an
error, or a map of per-doc DocStreams plus a snapshot map. -/
inductive BulkRes where
  | err (e : ErrObj)
  | ok (streams : List (String × Nat)) (snapshotMap : List (String × JsVal))

/-- The install loop of one successful `_bulkSubscribe` iteration:
subscribe every returned stream via `_subscribeToStream`, accumulating
state and events. -/
def bulkInstall (st : AgentState) (collection : String)
    (streams : List (String × Nat)) : AgentState × List Ev :=
  streams.foldl
    (fun acc p =>
      let r := subscribeToStream acc.1 collection p.1 p.2
      (r.1, acc.2 ++ r.2))
    (st, [])

/-- The snapshot-map fix-up of one successful iteration: give a thumbs
up (`true`) for every subscribed doc that got no snapshot. -/
def fixSnapshotMap (snapshotMap : List (String × JsVal))
    (streams : List (String × Nat)) : List (String × JsVal) :=
  streams.foldl
    (fun m p =>
      if ((m.lookup p.1).getD .undefV).truthy then m
      else assocSet m p.1 (.boolV true))
    snapshotMap

/-- The running state of `_bulkSubscribe`'s `async.forEachOf`: agent
state, events so far, the per-collection response being aggregated, and
the first error any collection reported. -/
structure BulkAcc where
  st : AgentState
  evs : List Ev
  response : List (String × List (String × JsVal))
  firstErr : Option ErrObj

/-- One collection's iteration of `_bulkSubscribe`: on a Backend error
report it (keeping an earlier error if one was already reported); on
success install the streams and record the fixed-up snapshot map in the
response. -/
def bulkStep (backend : String → JsVal → BulkRes) (acc : BulkAcc)
    (p : String × JsVal) : BulkAcc :=
  match backend p.1 p.2 with
  | .err e =>
    { acc with
        firstErr := match acc.firstErr with
          | some e0 => some e0
          | none => some e }
  | .ok streams snapshotMap =>
    let r := bulkInstall acc.st p.1 streams
    { acc with
        st := r.1
        evs := acc.evs ++ r.2
        response := assocSet acc.response p.1 (fixSnapshotMap snapshotMap streams) }

/-- The leak-prevention sweep of `_bulkSubscribe`'s completion
callback: for every collection of the original request, destroy any
stream still registered under a docId named in that collection's
versions map. -/
def bulkErrorSweep (docs : List (String × List (String × Nat))) (request : JsVal) :
    List Ev :=
  (jsForInEntries request).flatMap fun p =>
    match docs.lookup p.1 with
    | none => []
    | some ds => (jsForInKeys p.2).filterMap fun id => (ds.lookup id).map Ev.destroyStream

/-- Port of `Agent.prototype._bulkSubscribe`, with the per-collection
Backend outcomes given by `backend` and the Backend callbacks resolving
in request order (one admissible schedule of the single-threaded
runtime; every iteratee runs, as `async.forEachOf` starts them all).
When some collection failed, the completion callback sweeps the
registered streams of all requested docIds and replies with the first
error; otherwise it replies with the aggregated snapshot maps. -/
def bulkSubscribe (st : AgentState) (request : JsVal)
    (backend : String → JsVal → BulkRes) : AgentState × List Ev :=
  let acc := (jsForInEntries request).foldl (bulkStep backend)
    { st := st, evs := [], response := [], firstErr := none }
  match acc.firstErr with
  | some e =>
    (acc.st,
      acc.evs ++ bulkErrorSweep acc.st.subscribedDocs request ++ [.reply (some e) .empty])
  | none => (acc.st, acc.evs ++ [.reply none (.bsRes acc.response)])

/-- Any stream registered for a requested `(collection, docId)` at
sweep time is destroyed by the sweep. -/
theorem mem_bulkErrorSweep (docs : List (String × List (String × Nat)))
    (request : JsVal) (p : String × JsVal) (hp : p ∈ jsForInEntries request)
    (id : String) (hid : id ∈ jsForInKeys p.2) (ds : List (String × Nat))
    (hds : docs.lookup p.1 = some ds) (s : Nat) (hs : ds.lookup id = some s) :
    Ev.destroyStream s ∈ bulkErrorSweep docs request := by
  rw [bulkErrorSweep, List.mem_flatMap]
  refine ⟨p, hp, ?_⟩
  rw [hds, List.mem_filterMap]
  exact ⟨id, hid, by rw [hs]; rfl⟩

/-- C3: when some collection's `Backend.subscribeBulk` call fails, the
events of the bulk subscribe are the install events, then the
leak-prevention sweep, then the reply carrying the first error — and
the sweep destroys every DocStream then registered in `subscribedDocs`
under any docId named in the original request, across all requested
collections, before that reply. -/
theorem bulkSubscribe_partial_failure (st : AgentState) (request : JsVal)
    (backend : String → JsVal → BulkRes) (e : ErrObj)
    (h : ((jsForInEntries request).foldl (bulkStep backend)
      { st := st, evs := [], response := [], firstErr := none }).firstErr = some e) :
    (bulkSubscribe st request backend).2 =
      ((jsForInEntries request).foldl (bulkStep backend)
          { st := st, evs := [], response := [], firstErr := none }).evs ++
        bulkErrorSweep
          ((jsForInEntries request).foldl (bulkStep backend)
            { st := st, evs := [], response := [], firstErr := none }).st.subscribedDocs
          request ++
        [.reply (some e) .empty] ∧
    (∀ p ∈ jsForInEntries request, ∀ id ∈ jsForInKeys p.2, ∀ ds s,
      ((jsForInEntries request).foldl (bulkStep backend)
          { st := st, evs := [], response := [], firstErr := none
            }).st.subscribedDocs.lookup p.1 = some ds →
      ds.lookup id = some s →
      Ev.destroyStream s ∈ bulkErrorSweep
        ((jsForInEntries request).foldl (bulkStep backend)
          { st := st, evs := [], response := [], firstErr := none }).st.subscribedDocs
        request) := by
  constructor
  · rw [bulkSubscribe]
    simp only [h]
  · intro p hp id hid ds s hds hs
    exact mem_bulkErrorSweep _ request p hp id hid ds hds s hs

/-- Witness for C3, the spec's bulk partial-failure scenario:
`{a:"bs", s:{A:{x:null}, B:{y:null}}}` where collection `A` succeeds
with one stream (handle 7) for `x` and collection `B` fails — the
installed stream 7 is destroyed by the sweep and the reply carries
`B`'s error. -/
theorem bulkSubscribe_partial_failure_witness :
    (bulkSubscribe
        { closed := false, subscribedDocs := [], subscribedQueries := [] }
        (.objV [("A", .objV [("x", .nullV)]), ("B", .objV [("y", .nullV)])])
        (fun collection _ =>
          if collection == "A" then .ok [("x", 7)] []
          else .err { code := .numV 500, message := .strV "fail" })).2 =
      [.registerStream "A" "x" 7, .destroyStream 7,
        .reply (some { code := .numV 500, message := .strV "fail" }) .empty] ∧
    Ev.destroyStream 7 ∈ bulkErrorSweep [("A", [("x", 7)])]
      (.objV [("A", .objV [("x", .nullV)]), ("B", .objV [("y", .nullV)])]) := by
  have h := bulkSubscribe_partial_failure
    { closed := false, subscribedDocs := [], subscribedQueries := [] }
    (.objV [("A", .objV [("x", .nullV)]), ("B", .objV [("y", .nullV)])])
    (fun collection _ =>
      if collection == "A" then .ok [("x", 7)] []
      else .err { code := .numV 500, message := .strV "fail" })
    { code := .numV 500, message := .strV "fail" } rfl
  constructor
  · exact h.1
  · exact h.2 ("A", .objV [("x", .nullV)]) (by simp [jsForInEntries]) "x"
      (by simp [jsForInKeys]) [("x", 7)] 7 rfl rfl

end ShareDB
